import Mathlib

/-!
Verification development for src/final_outcome.py: an asyncio program that
drives an AlphaMini robot through a fixed movement plan, interrupted by an
infrared obstacle monitor and started/stopped by recognized speech.

Modelling approach (shallow embedding). Every externally observable action of
the program (actuator move commands, text-to-speech announcements, stream
subscription changes, timed sleeps, writes to the global STOP_MOVE_SEQUENCE
flag, and the connection lifecycle calls) is an `Event`; each embedded
function computes the list of events it performs, in program order. Outcomes
of external SDK calls (actuator success, and assertions of the interrupt flag
made by the concurrently scheduled infrared handler while a given actuator
call is in flight) are inputs, collected in `Env`. The global flag
STOP_MOVE_SEQUENCE is threaded explicitly: inside move_sequence it can only
be turned on by the infrared handler (the handler turns it off again only
after its two 2-second cooldowns, long after the checks in flight), so within
one pass of move_sequence the flag accumulates monotonically from the
per-call assertion inputs.
-/

namespace FinalOutcome

/-- Movement directions of mini.MoveRobotDirection used by the program. -/
inductive Direction where
  | forward
  | backward
  | leftward
  | rightward
deriving DecidableEq, Repr

/-- Observable actions of src/final_outcome.py, in the order the program
performs them: actuator commands, announcements, sleeps, stream subscription
changes, writes to STOP_MOVE_SEQUENCE, and connection lifecycle calls. -/
inductive Event where
  | move (d : Direction) (mag : Nat)
  | sleep (secs : Nat)
  | tts (text : String)
  | setFlag (b : Bool)
  | stopIR
  | startIR
  | stopSpeech
  | startSpeech
  | discover
  | connect
  | enterProgram
  | quitProgram
  | release
deriving DecidableEq, Repr

/-- Environment of one pass of move_sequence: rI is whether the actuator call
for plan step I returns success (MiniApiResultType.Success together with
response.isSuccess, folded into one boolean), and tI is whether the infrared
handler asserts STOP_MOVE_SEQUENCE while the actuator call for step I is in
flight (the handler runs during the awaits of that call). -/
structure Env where
  r0 : Bool
  r1 : Bool
  r2 : Bool
  r3 : Bool
  t0 : Bool
  t1 : Bool
  t2 : Bool
  t3 : Bool
deriving DecidableEq

instance : Fintype Env :=
  Fintype.ofEquiv (Bool × Bool × Bool × Bool × Bool × Bool × Bool × Bool)
    { toFun := fun x =>
        ⟨x.1, x.2.1, x.2.2.1, x.2.2.2.1, x.2.2.2.2.1, x.2.2.2.2.2.1,
         x.2.2.2.2.2.2.1, x.2.2.2.2.2.2.2⟩
      invFun := fun e => (e.r0, e.r1, e.r2, e.r3, e.t0, e.t1, e.t2, e.t3)
      left_inv := fun _ => rfl
      right_inv := fun _ => rfl }

/-- Embedding of move_robot (src/final_outcome.py lines 28-41): issue the move
command to the actuator; when the call reports success, sleep one second
before returning. The boolean result returned to the caller is exactly ok. -/
def move_robot (d : Direction) (mag : Nat) (ok : Bool) : List Event :=
  Event.move d mag :: if ok then [Event.sleep 1] else []

/-- Embedding of move_sequence (src/final_outcome.py lines 44-53). The
parameter prior is the value of the global STOP_MOVE_SEQUENCE at entry; line
47 overwrites it with False before the first step, so it is never read. The
conditional structure mirrors the source exactly: the checks after steps 0, 2
and 3 are the conjunctions of the actuator result with the negated flag,
while the check after step 1 (Backward 4) tests only the actuator result —
the source omits the flag conjunct on that line (line 50). The flag value fI
read by the check after call I accumulates the assertions made while calls
0..I were in flight. -/
def move_sequence (_prior : Bool) (e : Env) : List Event :=
  Event.setFlag false ::
  (move_robot Direction.forward 9 e.r0 ++
    (let f0 := e.t0
     if e.r0 && !f0 then
       move_robot Direction.backward 4 e.r1 ++
         (let f1 := f0 || e.t1
          if e.r1 then
            move_robot Direction.rightward 6 e.r2 ++
              (let f2 := f1 || e.t2
               if e.r2 && !f2 then
                 move_robot Direction.forward 5 e.r3 ++
                   (let f3 := f2 || e.t3
                    if e.r3 && !f3 then
                      [Event.tts "Finished cleaning, returning to home position"]
                    else [])
               else [])
          else [])
     else []))

/-- Embedding of the infrared handler (src/final_outcome.py lines 61-81),
run on one delivered reading with distance dist. When dist < 150 the handler,
in source order: stops the infrared observer, sets STOP_MOVE_SEQUENCE to
True, announces the obstacle, sleeps 2 seconds, issues one retreat move
(Backward 5, outcome ok), sleeps 2 seconds, sets STOP_MOVE_SEQUENCE to
False, restarts the infrared observer, and calls move_sequence again (which
runs in environment e). When dist is not below 150 the handler does nothing
observable (only the log line, which is not an event). -/
def observe_infrared_handler (dist : Nat) (ok : Bool) (e : Env) : List Event :=
  if dist < 150 then
    Event.stopIR ::
    Event.setFlag true ::
    Event.tts "Obstacle detected, stopping movement." ::
    Event.sleep 2 ::
    (move_robot Direction.backward 5 ok ++
      (Event.sleep 2 ::
       Event.setFlag false ::
       Event.startIR ::
       move_sequence false e))
  else []

/-- Synchronous part of the infrared handler before its first await
(src/final_outcome.py lines 65-67): the subscription is stopped and the flag
set before the handler first suspends, at the announcement. This is the part
of a handler task that runs before any other task can be scheduled. -/
def observe_infrared_handler_sync (dist : Nat) : List Event :=
  if dist < 150 then [Event.stopIR, Event.setFlag true] else []

/-- Delivery model of line 83, observer.set_handler with a lambda that calls
asyncio.create_task(handler(msg)): each message delivered while subscribed
creates one handler task; observer.stop() run inside a handler prevents
later deliveries but does not cancel tasks already created. If two readings
are delivered before the first handler task is scheduled, both tasks exist;
when the event loop then runs them, each task executes its synchronous part
(stop, set flag) before either suspends at its announcement. This function
is the resulting event order up to those suspension points. -/
def burst_two_sync (d1 d2 : Nat) : List Event :=
  observe_infrared_handler_sync d1 ++ observe_infrared_handler_sync d2

/-- Embedding of Python str.strip().lower() as used on line 93, spelled out
character-wise over the string data so that it is kernel-computable: leading
and trailing whitespace characters are removed, then every basic-latin
upper-case letter is mapped to lower case. This matches the Python
normalization on the ASCII text the speech SDK delivers. -/
def strip_lower (s : String) : String :=
  ⟨(((s.data.dropWhile Char.isWhitespace).reverse.dropWhile
      Char.isWhitespace).reverse).map Char.toLower⟩

/-- Embedding of the speech handler (src/final_outcome.py lines 92-108), run
on one recognized utterance with raw text raw. The source normalizes with
str.strip() and str.lower() (embedded as strip_lower); an utterance
normalizing to "hello." plays the start announcement, stops the speech
observer, starts infrared observation (observe_infrared_distance: subscribe,
then an asyncio.sleep(0) yield) and runs move_sequence in environment e;
"finish." plays the shutdown announcement, stops the speech observer and
runs shutdown (Mini.quit_program then Mini.release); anything else falls
through both branches with no observable action. -/
def observe_speech_handler (raw : String) (e : Env) : List Event :=
  let recognized_text := strip_lower raw
  if recognized_text = "hello." then
    Event.tts "Starting cleaning process" ::
    Event.stopSpeech ::
    Event.startIR ::
    Event.sleep 0 ::
    move_sequence false e
  else if recognized_text = "finish." then
    [Event.tts "Shutting down.", Event.stopSpeech, Event.quitProgram,
     Event.release]
  else []

/-- Interleaved run in which the abort utterance "finish." is handled while
the first plan step is in flight. The speech handler task for "finish." runs
during the awaits of the actuator call for Forward 9 (the first two events
of move_sequence are the flag reset and that command). The handler
(src/final_outcome.py lines 103-107) writes nothing that move_sequence reads
— it does not touch STOP_MOVE_SEQUENCE and does not cancel the sequencer
task — so the sequencer resumes and its remaining events are exactly the
suffix of the uninterrupted trace. -/
def abort_during_first_step (e : Env) : List Event :=
  (move_sequence false e).take 2 ++
    observe_speech_handler "finish." e ++
    (move_sequence false e).drop 2

/-- Embedding of main together with get_device_by_name, connection,
start_run_program and observe_speech (src/final_outcome.py lines 117-147):
discovery is attempted once (its result is the input device); when it
returns no device, main falls through the if and ends; when it returns a
device, main connects (the boolean result connectOk is not read), enters
program mode and subscribes to the speech stream, then parks in the
sleep-forever loop (which performs no further observable action and is not
part of the trace). -/
def main_trace (device : Option Unit) (connectOk : Bool) : List Event :=
  Event.discover ::
    match device, connectOk with
    | none, _ => []
    | some _, _ => [Event.connect, Event.enterProgram, Event.startSpeech]

set_option maxRecDepth 8192 in
/-- Helper: no pass of move_sequence ever issues the retreat command
Backward 5 — its four plan steps are Forward 9, Backward 4, Rightward 6 and
Forward 5, in every environment. -/
theorem move_sequence_count_retreat (p : Bool) (e : Env) :
    (move_sequence p e).count (Event.move Direction.backward 5) = 0 := by
  revert p e
  decide

set_option maxRecDepth 8192 in
/-- Helper: in every environment, the first two events of move_sequence are
the reset of STOP_MOVE_SEQUENCE and the Forward 9 command of plan step 0. -/
theorem move_sequence_take_two (p : Bool) (e : Env) :
    (move_sequence p e).take 2 =
      [Event.setFlag false, Event.move Direction.forward 9] := by
  revert p e
  decide

/-- Claim C1: the sequencer is claimed to check the interrupt before issuing
each step and, with the default plan, an interrupt asserted while step 2
(Backward 4) is in flight is claimed to prevent step 3 (Rightward 6) from
being issued. The code violates this: the conditional guarding Rightward 6
(source line 50) tests only the actuator result of Backward 4 and omits the
interrupt conjunct, so in the run where every actuator call succeeds and
STOP_MOVE_SEQUENCE is asserted while Backward 4 is in flight, Rightward 6 is
still issued; the assertion only takes effect at the next check, which
suppresses Forward 5. -/
theorem c1_interrupt_during_backward_still_issues_rightward :
    move_sequence false ⟨true, true, true, true, false, true, false, false⟩ =
      [Event.setFlag false,
       Event.move Direction.forward 9, Event.sleep 1,
       Event.move Direction.backward 4, Event.sleep 1,
       Event.move Direction.rightward 6, Event.sleep 1] ∧
    Event.move Direction.rightward 6 ∈
      move_sequence false ⟨true, true, true, true, false, true, false, false⟩ := by
  decide

/-- Claim C2: on every obstacle trip (a delivered reading with distance
strictly below 150), the handler performs, in order: the interrupt is
asserted, the announcement is issued, a 2-second cooldown elapses, exactly
one retreat step Backward 5 is issued, a second 2-second cooldown elapses,
the interrupt is cleared, the monitor is resumed, and the sequencer is
restarted on the entire plan from step 0 — the restarted pass begins with
the flag reset followed by the Forward 9 command of step 0, not the
interrupted index. (The source also unsubscribes the monitor before
asserting the interrupt, which the claim does not mention.) -/
theorem c2_recovery_protocol (d : Nat) (ok : Bool) (e : Env) (h : d < 150) :
    observe_infrared_handler d ok e =
      [Event.stopIR, Event.setFlag true,
       Event.tts "Obstacle detected, stopping movement.", Event.sleep 2] ++
      move_robot Direction.backward 5 ok ++
      [Event.sleep 2, Event.setFlag false, Event.startIR] ++
      move_sequence false e ∧
    (observe_infrared_handler d ok e).count (Event.move Direction.backward 5) = 1 ∧
    (move_sequence false e).take 2 =
      [Event.setFlag false, Event.move Direction.forward 9] := by
  have htr : observe_infrared_handler d ok e =
      [Event.stopIR, Event.setFlag true,
       Event.tts "Obstacle detected, stopping movement.", Event.sleep 2] ++
      move_robot Direction.backward 5 ok ++
      [Event.sleep 2, Event.setFlag false, Event.startIR] ++
      move_sequence false e := by
    unfold observe_infrared_handler
    rw [if_pos h]
    simp [List.append_assoc]
  refine ⟨htr, ?_, move_sequence_take_two false e⟩
  rw [htr]
  have h0 := move_sequence_count_retreat false e
  cases ok <;>
    simp [move_robot, List.count_append, List.count_cons, h0, List.count_nil]

/-- Witness for claim C2 at the concrete trip reading 120, a successful
retreat call and the all-success, no-interrupt environment. -/
theorem c2_recovery_protocol_witness :
    120 < 150 ∧
    (observe_infrared_handler 120 true ⟨true, true, true, true, false, false, false, false⟩ =
      [Event.stopIR, Event.setFlag true,
       Event.tts "Obstacle detected, stopping movement.", Event.sleep 2] ++
      move_robot Direction.backward 5 true ++
      [Event.sleep 2, Event.setFlag false, Event.startIR] ++
      move_sequence false ⟨true, true, true, true, false, false, false, false⟩ ∧
     (observe_infrared_handler 120 true
        ⟨true, true, true, true, false, false, false, false⟩).count
        (Event.move Direction.backward 5) = 1 ∧
     (move_sequence false ⟨true, true, true, true, false, false, false, false⟩).take 2 =
       [Event.setFlag false, Event.move Direction.forward 9]) :=
  ⟨by decide,
   c2_recovery_protocol 120 true ⟨true, true, true, true, false, false, false, false⟩
     (by decide)⟩

/-- Claim C3: a non-success actuator result at step i is claimed to produce
a Failed(i) report and an observable ActuatorFailure, never a silent halt.
The code violates this: when the first actuator call returns non-success,
the whole run consists of the flag reset and that one command and then just
stops — the program performs no failure report of any kind (its event
vocabulary, translated from the source, contains none) and issues no
announcement, so the halt is silent. -/
theorem c3_actuator_failure_is_silent :
    move_sequence false ⟨false, true, true, true, false, false, false, false⟩ =
      [Event.setFlag false, Event.move Direction.forward 9] ∧
    (move_sequence false ⟨false, true, true, true, false, false, false, false⟩).countP
      (fun ev => match ev with | Event.tts _ => true | _ => false) = 0 := by
  decide

/-- Claim C4: delivering Abort is claimed to guarantee that no actuator
command is issued after abort handling begins. The code violates this: the
abort branch of the speech handler stops only the speech observer and
releases the connection; it neither sets STOP_MOVE_SEQUENCE nor cancels the
sequencer task, so a move_sequence whose first step is in flight when the
abort handler runs resumes afterwards and issues Backward 4, Rightward 6 and
Forward 5 — actuator commands strictly after Mini.release. -/
theorem c4_abort_does_not_silence_sequencer :
    abort_during_first_step ⟨true, true, true, true, false, false, false, false⟩ =
      [Event.setFlag false, Event.move Direction.forward 9,
       Event.tts "Shutting down.", Event.stopSpeech, Event.quitProgram,
       Event.release, Event.sleep 1,
       Event.move Direction.backward 4, Event.sleep 1,
       Event.move Direction.rightward 6, Event.sleep 1,
       Event.move Direction.forward 5, Event.sleep 1,
       Event.tts "Finished cleaning, returning to home position"] ∧
    Event.move Direction.backward 4 ∈
      (abort_during_first_step
        ⟨true, true, true, true, false, false, false, false⟩).drop 6 := by
  decide

/-- Claim C5: in any run in which every actuator call succeeds and no
delivered proximity reading is below the threshold 150 (so the infrared
handler never acts and the interrupt is never asserted), every step of the
plan Forward 9, Backward 4, Rightward 6, Forward 5 is issued exactly once,
in that order, followed by exactly one terminal announcement. -/
theorem c5_clean_run_issues_plan_once (ds : List Nat) (ok : Bool)
    (h : ∀ d ∈ ds, ¬ d < 150) :
    (∀ d ∈ ds, observe_infrared_handler d ok
        ⟨true, true, true, true, false, false, false, false⟩ = []) ∧
    move_sequence false ⟨true, true, true, true, false, false, false, false⟩ =
      [Event.setFlag false,
       Event.move Direction.forward 9, Event.sleep 1,
       Event.move Direction.backward 4, Event.sleep 1,
       Event.move Direction.rightward 6, Event.sleep 1,
       Event.move Direction.forward 5, Event.sleep 1,
       Event.tts "Finished cleaning, returning to home position"] ∧
    (move_sequence false ⟨true, true, true, true, false, false, false, false⟩).filter
      (fun ev => match ev with | Event.move _ _ => true | _ => false) =
      [Event.move Direction.forward 9, Event.move Direction.backward 4,
       Event.move Direction.rightward 6, Event.move Direction.forward 5] ∧
    (move_sequence false ⟨true, true, true, true, false, false, false, false⟩).countP
      (fun ev => match ev with | Event.tts _ => true | _ => false) = 1 := by
  refine ⟨?_, by decide, by decide, by decide⟩
  intro d hd
  unfold observe_infrared_handler
  rw [if_neg (h d hd)]

/-- Witness for claim C5 at the concrete reading list of four clear readings
and successful actuator calls. -/
theorem c5_clean_run_issues_plan_once_witness :
    (∀ d ∈ [300, 300, 300, 300], ¬ d < 150) ∧
    ((∀ d ∈ [300, 300, 300, 300], observe_infrared_handler d true
        ⟨true, true, true, true, false, false, false, false⟩ = []) ∧
     move_sequence false ⟨true, true, true, true, false, false, false, false⟩ =
       [Event.setFlag false,
        Event.move Direction.forward 9, Event.sleep 1,
        Event.move Direction.backward 4, Event.sleep 1,
        Event.move Direction.rightward 6, Event.sleep 1,
        Event.move Direction.forward 5, Event.sleep 1,
        Event.tts "Finished cleaning, returning to home position"] ∧
     (move_sequence false ⟨true, true, true, true, false, false, false, false⟩).filter
       (fun ev => match ev with | Event.move _ _ => true | _ => false) =
       [Event.move Direction.forward 9, Event.move Direction.backward 4,
        Event.move Direction.rightward 6, Event.move Direction.forward 5] ∧
     (move_sequence false ⟨true, true, true, true, false, false, false, false⟩).countP
       (fun ev => match ev with | Event.tts _ => true | _ => false) = 1) :=
  ⟨by decide, c5_clean_run_issues_plan_once [300, 300, 300, 300] true (by decide)⟩

/-- Claim C6: the monitor is claimed never to emit a second trip
notification before an explicit resume, regardless of reading burst rate.
The code violates this under a burst: the handler is attached as a lambda
that calls asyncio.create_task per delivered message, so two sub-threshold
readings delivered before the first handler task is scheduled create two
handler tasks; observer.stop() inside the first task cannot cancel the
already-created second task, and the second task begins its own trip
handling (second unsubscribe call and second interrupt assertion) before any
resume — the event order up to the first suspension points contains two trip
beginnings and no resume. -/
theorem c6_burst_readings_trip_twice_before_resume :
    burst_two_sync 120 120 =
      [Event.stopIR, Event.setFlag true, Event.stopIR, Event.setFlag true] ∧
    (burst_two_sync 120 120).count Event.stopIR = 2 ∧
    Event.startIR ∉ burst_two_sync 120 120 := by
  decide

/-- Claim C7: the speech handler normalizes each utterance by trimming and
lowercasing and maps it by exact match: a normalization equal to "hello."
produces the start behavior (start announcement, unsubscribe from the
utterance stream, start of infrared observation, then the movement
sequence), a normalization equal to "finish." produces the abort behavior
(shutdown announcement, unsubscribe, quit program, release), and any other
utterance produces no observable action; on a match the listener
unsubscribes from the utterance stream (the stopSpeech event in both
matched traces). -/
theorem c7_speech_vocabulary (raw : String) (e : Env) :
    (strip_lower raw = "hello." →
      observe_speech_handler raw e =
        Event.tts "Starting cleaning process" :: Event.stopSpeech ::
        Event.startIR :: Event.sleep 0 :: move_sequence false e) ∧
    (strip_lower raw = "finish." →
      observe_speech_handler raw e =
        [Event.tts "Shutting down.", Event.stopSpeech, Event.quitProgram,
         Event.release]) ∧
    (strip_lower raw ≠ "hello." → strip_lower raw ≠ "finish." →
      observe_speech_handler raw e = []) := by
  refine ⟨fun h1 => ?_, fun h2 => ?_, fun h1 h2 => ?_⟩
  · unfold observe_speech_handler
    rw [if_pos h1]
  · have hne : strip_lower raw ≠ "hello." := by
      rw [h2]; decide
    unfold observe_speech_handler
    rw [if_neg hne, if_pos h2]
  · unfold observe_speech_handler
    rw [if_neg h1, if_neg h2]

/-- Witness for claim C7 at the concrete utterance with leading and trailing
whitespace and mixed case, in the all-success, no-interrupt environment. -/
theorem c7_speech_vocabulary_witness :
    observe_speech_handler "  Hello. " ⟨true, true, true, true, false, false, false, false⟩ =
      Event.tts "Starting cleaning process" :: Event.stopSpeech ::
      Event.startIR :: Event.sleep 0 ::
      move_sequence false ⟨true, true, true, true, false, false, false, false⟩ :=
  (c7_speech_vocabulary "  Hello. "
    ⟨true, true, true, true, false, false, false, false⟩).1 (by decide)

/-- Claim C8: when device discovery returns no device, the core never
starts: the trace of main is the single discovery attempt — no connect, no
program-mode entry, no stream subscription, no actuator command — and
discovery is attempted exactly once (no retry), whatever the connect
outcome would have been. -/
theorem c8_no_device_core_never_starts (connectOk : Bool) :
    main_trace none connectOk = [Event.discover] ∧
    (main_trace none connectOk).count Event.discover = 1 := by
  cases connectOk <;> exact ⟨rfl, rfl⟩

set_option maxRecDepth 8192 in
/-- Claim C9: move_sequence overwrites the global STOP_MOVE_SEQUENCE with
False on entry (source line 47) before issuing anything, so its trace is
identical whatever the flag held at entry, and its first issued actuator
command is the Forward 9 of plan step 0 in every environment — in
particular even when the interrupt was asserted before the invocation
began. -/
theorem c9_flag_reset_on_entry (prior : Bool) (e : Env) :
    move_sequence prior e = move_sequence false e ∧
    (move_sequence prior e).take 2 =
      [Event.setFlag false, Event.move Direction.forward 9] :=
  ⟨rfl, move_sequence_take_two prior e⟩

/-- Claim C10: the boolean result of Mini.connect is never read: whenever
discovery returns a device, main proceeds to enter program mode and
subscribe to the speech stream, and its trace is the same whether the
connect call reports success or failure. -/
theorem c10_connect_result_unchecked (connectOk : Bool) :
    main_trace (some ()) connectOk =
      [Event.discover, Event.connect, Event.enterProgram, Event.startSpeech] ∧
    main_trace (some ()) true = main_trace (some ()) false := by
  cases connectOk <;> exact ⟨rfl, rfl⟩

end FinalOutcome
